import Mathlib

/-!
Verification of `pangeo_forge_runner.storage` (`StorageTargetConfig`) and
`pangeo_forge_runner.meta_yaml` (`MetaYaml`) against their natural-language
specification, via a shallow embedding in Lean 4.

Python values (the entries of `fsspec_args`, the `meta.yaml` document fields,
...) are modelled by the inductive `PyVal`.  Python dicts are modelled as
association lists, preserving insertion order, the order Python dicts iterate
in.
-/

/-- A Python runtime value, as far as the code under verification inspects it:
strings, ints, bools, `None`, lists and (string-keyed) dicts. -/
inductive PyVal where
  | str (s : String)
  | int (n : Int)
  | bool (b : Bool)
  | none
  | list (xs : List PyVal)
  | dict (entries : List (String × PyVal))

/-- `type(v).__name__` for a `PyVal`. -/
def PyVal.typeName : PyVal → String
  | .str _ => "str"
  | .int _ => "int"
  | .bool _ => "bool"
  | .none => "NoneType"
  | .list _ => "list"
  | .dict _ => "dict"

/-!
## Python `str.format` (as used by `root_path.format(job_name=job_name)`)

`storage.py` expands the root path with `self.root_path.format(job_name=job_name)`.
`str.format` is *not* literal substring substitution: it scans the template for
replacement fields.  `{{` and `}}` are escapes for literal braces, `{job_name}`
is replaced by the keyword argument, `{other}` raises `KeyError('other')`,
`{}` / `{0}` raise `IndexError` (no positional arguments are supplied), and an
unmatched single `{` or `}` raises `ValueError`.

The model below covers replacement fields that are bare field names (no `!conv`
or `:format-spec` suffix, which the templates relevant to the claims never
use).
-/

/-- The errors `str.format` can raise on the call in `get_forge_target`. -/
inductive FormatError where
  | keyError (k : String)
  | indexError
  | valueError
deriving DecidableEq, Repr

/-- The characters of the one keyword `format` is called with: `job_name`. -/
def jobNameField : List Char := ['j', 'o', 'b', '_', 'n', 'a', 'm', 'e']

/-- Look up a replacement-field name: `job_name` resolves to the job name,
an all-digit (or empty) field is a positional reference with no positional
arguments (`IndexError`), anything else is an unknown keyword (`KeyError`). -/
def fieldLookup (f job : List Char) : Except FormatError (List Char) :=
  if f = jobNameField then .ok job
  else if f.all Char.isDigit then .error .indexError
  else .error (.keyError (String.mk f))

/-- Scanner state of the `str.format` model: scanning literal text, having
just consumed a `{`, having just consumed a `}`, or inside a replacement
field with the accumulated (reversed) field name. -/
inductive FmtMode where
  | text : FmtMode
  | openBrace : FmtMode
  | closeBrace : FmtMode
  | field (acc : List Char) : FmtMode

/-- One pass of the `str.format` scanner with the single keyword argument
`job_name := job`. -/
def pyFmtGo (job : List Char) : List Char → FmtMode → Except FormatError (List Char)
  | [], .text => .ok []
  | [], .openBrace => .error .valueError
  | [], .closeBrace => .error .valueError
  | [], .field _ => .error .valueError
  | c :: rest, .text =>
    if c = '{' then pyFmtGo job rest .openBrace
    else if c = '}' then pyFmtGo job rest .closeBrace
    else
      match pyFmtGo job rest .text with
      | .error e => .error e
      | .ok out => .ok (c :: out)
  | c :: rest, .openBrace =>
    if c = '{' then
      match pyFmtGo job rest .text with
      | .error e => .error e
      | .ok out => .ok ('{' :: out)
    else if c = '}' then
      match fieldLookup [] job with
      | .error e => .error e
      | .ok v =>
        match pyFmtGo job rest .text with
        | .error e => .error e
        | .ok out => .ok (v ++ out)
    else pyFmtGo job rest (.field [c])
  | c :: rest, .closeBrace =>
    if c = '}' then
      match pyFmtGo job rest .text with
      | .error e => .error e
      | .ok out => .ok ('}' :: out)
    else .error .valueError
  | c :: rest, .field acc =>
    if c = '}' then
      match fieldLookup acc.reverse job with
      | .error e => .error e
      | .ok v =>
        match pyFmtGo job rest .text with
        | .error e => .error e
        | .ok out => .ok (v ++ out)
    else pyFmtGo job rest (.field (c :: acc))

/-- `template.format(job_name=job)`. -/
def pyStrFormat (template job : String) : Except FormatError String :=
  match pyFmtGo job.toList template.toList .text with
  | .error e => .error e
  | .ok out => .ok (String.mk out)

example : pyStrFormat "{job_name}/out" "run-42" = .ok "run-42/out" := rfl
example : pyStrFormat "plain" "run-42" = .ok "plain" := rfl
example : pyStrFormat "{x}" "run-42" = .error (.keyError "x") := rfl
example : pyStrFormat "{{job_name}}" "run-42" = .ok "{job_name}" := rfl
example : pyStrFormat "{}" "run-42" = .error .indexError := rfl
example : pyStrFormat "oops\x7d" "run-42" = .error .valueError := rfl
example : pyStrFormat "\x7bjob_name" "run-42" = .error .valueError := rfl

/-!
## `storage.py`: `StorageTargetConfig`

Traitlets classes are modelled as plain structures whose fields carry the
traits' configured values; each field's trait default (the value a freshly
constructed, unconfigured instance holds) is collected in
`StorageTargetConfig.traitDefaults` below.

A Python class object (the value of the `Type` trait `fsspec_class`, compared
with `==` against `AbstractFileSystem` in `is_default`) is modelled by its
name, `FsClass`.  The external `pangeo_forge_recipes.storage` target class —
looked up dynamically with `getattr(storage, self.pangeo_forge_target_class)`
— is modelled by `ExternalClass`: its name, whether it is a dataclass (i.e.
whether `dataclasses.fields` succeeds on it), and its declared dataclass
field names.
-/

/-- A Python class object, identified by its name (class identity is what
`fsspec_class == AbstractFileSystem` compares). -/
structure FsClass where
  name : String
deriving DecidableEq, Repr

/-- `fsspec.AbstractFileSystem`, the abstract base filesystem type and the
default of the `fsspec_class` trait. -/
def AbstractFileSystem : FsClass := ⟨"AbstractFileSystem"⟩

/-- The configured state of a `StorageTargetConfig` instance, field per trait,
in source order. -/
structure StorageTargetConfig where
  fsspec_class : FsClass
  fsspec_args : List (String × PyVal)
  root_path : String
  enable_assume_role : Bool
  assume_role_credential_kwargs : List (String × PyVal)
  pangeo_forge_target_class : String

/-- A freshly constructed `StorageTargetConfig` with no trait configured:
`fsspec_class` defaults to the trait's `klass` (`AbstractFileSystem`),
`fsspec_args` to `{}`, `root_path` to `""`, `enable_assume_role` to `False`,
`assume_role_credential_kwargs` to `{}`, and `pangeo_forge_target_class` (an
unconfigured `Unicode`) to `""`. -/
def StorageTargetConfig.traitDefaults : StorageTargetConfig :=
  { fsspec_class := AbstractFileSystem
    fsspec_args := []
    root_path := ""
    enable_assume_role := false
    assume_role_credential_kwargs := []
    pangeo_forge_target_class := "" }

/-- `StorageTargetConfig.is_default`:
`return self.fsspec_class == AbstractFileSystem and not self.root_path`.
(`not` on a Python string is true exactly when the string is empty.) -/
def StorageTargetConfig.is_default (c : StorageTargetConfig) : Bool :=
  c.fsspec_class == AbstractFileSystem && c.root_path == ""

/-- An external `pangeo_forge_recipes.storage` target class, as
`get_forge_target` introspects it. -/
structure ExternalClass where
  name : String
  isDataclass : Bool
  fieldNames : List String

/-- Errors surfacing from `get_forge_target`: the `TypeError` that
`dataclasses.fields` raises when its argument is not a dataclass (the spec's
taxonomy calls this failure `UnsupportedStorageAPIError`), and the errors
`str.format` raises while expanding `root_path`. -/
inductive StorageError where
  | fieldsTypeError (className : String)
  | formatError (e : FormatError)
deriving DecidableEq, Repr

/-- `dataclasses.fields(cls)`, returning the declared field names, or the
`TypeError` when `cls` is not a dataclass. -/
def pyFields (cls : ExternalClass) : Except StorageError (List String) :=
  if cls.isDataclass then .ok cls.fieldNames
  else .error (.fieldsTypeError cls.name)

/-- `self.fsspec_class(**self.fsspec_args)`: the instantiated filesystem. -/
structure FsInstance where
  cls : FsClass
  args : List (String × PyVal)

/-- A Python value passed as a keyword argument to the external target
class's constructor. -/
inductive KwVal where
  | dict (entries : List (String × PyVal))
  | bool (b : Bool)

/-- The constructor call `get_forge_target` makes: the external class applied
to the filesystem instance (positional), the expanded `root_path` (keyword
`root_path`), and the remaining keyword arguments in source order. -/
structure TargetInstance where
  className : String
  fs : FsInstance
  root_path : String
  kwargs : List (String × KwVal)

/-- `StorageTargetConfig.get_forge_target`.  The dynamic lookup
`getattr(storage, self.pangeo_forge_target_class)` supplies `cls`; the
`fields(cls)` introspection in the `if` condition runs first (and its
`TypeError` propagates uncaught), then each branch instantiates the
filesystem and expands `root_path` with `str.format`. -/
def StorageTargetConfig.get_forge_target (c : StorageTargetConfig)
    (cls : ExternalClass) (job_name : String) :
    Except StorageError TargetInstance :=
  match pyFields cls with
  | .error e => .error e
  | .ok flds =>
    match pyStrFormat c.root_path job_name with
    | .error e => .error (.formatError e)
    | .ok root =>
      if flds.contains "enable_assume_role" then
        .ok { className := cls.name
              fs := ⟨c.fsspec_class, c.fsspec_args⟩
              root_path := root
              kwargs :=
                [("_fsspec_kwargs", .dict c.fsspec_args),
                 ("enable_assume_role", .bool c.enable_assume_role),
                 ("assume_role_credential_kwargs",
                  .dict c.assume_role_credential_kwargs)] }
      else if flds.contains "fsspec_kwargs" then
        .ok { className := cls.name
              fs := ⟨c.fsspec_class, c.fsspec_args⟩
              root_path := root
              kwargs := [("fsspec_kwargs", .dict c.fsspec_args)] }
      else
        .ok { className := cls.name
              fs := ⟨c.fsspec_class, c.fsspec_args⟩
              root_path := root
              kwargs := [] }

/-- The `fsspec_args_filtered` string of `StorageTargetConfig.__str__`:
`", ".join(f"{k}=<{type(v).__name__}>" for k, v in self.fsspec_args.items())`. -/
def fsspecArgsFiltered (args : List (String × PyVal)) : String :=
  String.intercalate ", "
    (args.map fun kv => kv.1 ++ "=<" ++ kv.2.typeName ++ ">")

/-- `StorageTargetConfig.__str__`:
`f'{tc}({fs_name}({fsspec_args_filtered}, root_path="{root_path}")'`
(the unbalanced parenthesis is the source's own). -/
def StorageTargetConfig.toStr (c : StorageTargetConfig) : String :=
  c.pangeo_forge_target_class ++ "(" ++ c.fsspec_class.name ++ "(" ++
    fsspecArgsFiltered c.fsspec_args ++ ", root_path=\"" ++ c.root_path ++ "\")"

example :
    StorageTargetConfig.toStr
      { fsspec_class := ⟨"S3FileSystem"⟩
        fsspec_args := [("key", .str "AKIA123"), ("anon", .bool false)]
        root_path := "bucket/out"
        enable_assume_role := false
        assume_role_credential_kwargs := []
        pangeo_forge_target_class := "FSSpecTarget" } =
    "FSSpecTarget(S3FileSystem(key=<str>, anon=<bool>, root_path=\"bucket/out\")" := rfl

/-!
## `meta_yaml.py`: `MetaYaml`

`MetaYaml(HasTraits)` validates each keyword argument passed at construction
against its trait; a trait left unset keeps its default.  Traitlets imposes no
"required field" notion: constructing `MetaYaml()` with no `recipes` succeeds
and `.recipes` reads as the default of `Union([List(Dict()), Dict()])`, which
is the first member trait's default, the empty list.

Trait validators, from the source declarations:
* `title`, `description`: `Unicode(allow_none=True)` — a string, or `None`.
* `recipes`: `Union([List(Dict()), Dict()])` — a list whose elements are all
  dicts, or a dict (tried in that order).
* `provenance`: `Dict(allow_none=True, per_key_traits={"providers":
  List(Dict(per_key_traits=...)), "license": Unicode()})` — `None` or a dict;
  keys with a per-key trait are validated against it, other keys are free.
* `maintainers`: `List(Dict(per_key_traits={"name"/"orcid"/"github":
  Unicode()}), allow_none=True)` — `None` or a list of such dicts.
-/

/-- Is the value a Python `str`? (`Unicode()` validation, `allow_none=False`.) -/
def isStrVal : PyVal → Bool
  | .str _ => true
  | _ => false

/-- Is the value a Python `dict`? (`Dict()` validation.) -/
def isDictVal : PyVal → Bool
  | .dict _ => true
  | _ => false

/-- Is the value a Python `list`? (`List()` validation, any element type.) -/
def isListVal : PyVal → Bool
  | .list _ => true
  | _ => false

/-- `Unicode(allow_none=True)` validation: a string, or `None`. -/
def validOptUnicode : PyVal → Bool
  | .str _ => true
  | .none => true
  | _ => false

/-- `Union([List(Dict()), Dict()])` validation for `recipes`: a list of
dicts, or a dict. -/
def validRecipes (v : PyVal) : Bool :=
  (match v with
   | .list xs => xs.all isDictVal
   | _ => false) || isDictVal v

/-- `Dict(per_key_traits=...)` validation: the value must be a dict, and each
entry whose key has a per-key trait must satisfy it; other keys are validated
by the default value trait (`Any`). -/
def validPerKeyDict (perKey : List (String × (PyVal → Bool))) (v : PyVal) : Bool :=
  match v with
  | .dict es => es.all fun kv =>
      match perKey.find? (fun p => p.1 == kv.1) with
      | some p => p.2 kv.2
      | Option.none => true
  | _ => false

/-- One entry of `provenance["providers"]`: `Dict(per_key_traits={"name":
Unicode(), "description": Unicode(), "roles": List(), "url": Unicode()})`. -/
def validProviderEntry : PyVal → Bool :=
  validPerKeyDict
    [("name", isStrVal), ("description", isStrVal),
     ("roles", isListVal), ("url", isStrVal)]

/-- `provenance` validation. -/
def validProvenance : PyVal → Bool
  | .none => true
  | .dict es => es.all fun kv =>
      if kv.1 = "providers" then
        match kv.2 with
        | .list xs => xs.all validProviderEntry
        | _ => false
      else if kv.1 = "license" then isStrVal kv.2
      else true
  | _ => false

/-- One entry of `maintainers`: `Dict(per_key_traits={"name": Unicode(),
"orcid": Unicode(), "github": Unicode()})`. -/
def validMaintainerEntry : PyVal → Bool :=
  validPerKeyDict
    [("name", isStrVal), ("orcid", isStrVal), ("github", isStrVal)]

/-- `maintainers` validation (`allow_none=True` on the `List`). -/
def validMaintainers : PyVal → Bool
  | .none => true
  | .list xs => xs.all validMaintainerEntry
  | _ => false

/-- The raw keyword arguments `MetaYaml(**raw_document)` is constructed with:
for each declared trait, either a value from the document or absence. -/
structure RawDoc where
  title : Option PyVal
  description : Option PyVal
  recipes : Option PyVal
  provenance : Option PyVal
  maintainers : Option PyVal

/-- A validated `MetaYaml` instance: the value each trait holds after
construction. -/
structure MetaYaml where
  title : PyVal
  description : PyVal
  recipes : PyVal
  provenance : PyVal
  maintainers : PyVal

/-- The `TraitError` traitlets raises when a passed value fails its trait's
validation, naming the offending trait (the spec's `SchemaError`). -/
inductive SchemaError where
  | traitError (traitName : String)
deriving DecidableEq, Repr

/-- Validate one trait: an absent keyword keeps the trait's default, a
present one must pass the trait's validator or `TraitError` is raised naming
the trait. -/
def validateTrait (traitName : String) (valid : PyVal → Bool) (dflt : PyVal) :
    Option PyVal → Except SchemaError PyVal
  | Option.none => .ok dflt
  | some v => if valid v then .ok v else .error (.traitError traitName)

/-- `MetaYaml(**doc)`: validate each passed trait value (in declaration
order), defaulting the absent ones.  Defaults: `title`/`description` are the
`Unicode` default `""`, `recipes` is the `Union`'s first member's default
`[]`, `provenance` the `Dict` default `{}`, `maintainers` the `List` default
`[]`. -/
def metaYamlValidate (d : RawDoc) : Except SchemaError MetaYaml :=
  match validateTrait "title" validOptUnicode (.str "") d.title with
  | .error e => .error e
  | .ok t =>
    match validateTrait "description" validOptUnicode (.str "") d.description with
    | .error e => .error e
    | .ok desc =>
      match validateTrait "recipes" validRecipes (.list []) d.recipes with
      | .error e => .error e
      | .ok r =>
        match validateTrait "provenance" validProvenance (.dict []) d.provenance with
        | .error e => .error e
        | .ok p =>
          match validateTrait "maintainers" validMaintainers (.list []) d.maintainers with
          | .error e => .error e
          | .ok m => .ok ⟨t, desc, r, p, m⟩

/-- A document carrying only the `recipes` key. -/
def recipesOnlyDoc (v : PyVal) : RawDoc :=
  ⟨Option.none, Option.none, some v, Option.none, Option.none⟩

example :
    metaYamlValidate (recipesOnlyDoc
      (.list [.dict [("id", .str "sst"), ("object", .str "recipe:recipe")]])) =
    .ok ⟨.str "", .str "",
         .list [.dict [("id", .str "sst"), ("object", .str "recipe:recipe")]],
         .dict [], .list []⟩ := rfl

example :
    metaYamlValidate (recipesOnlyDoc (.list [.str "recipe:recipe"])) =
    .error (.traitError "recipes") := rfl

/-!
## Theorems
-/

/-- **C4.** For every storage configuration, `is_default` returns true iff the
configured filesystem class is the unconfigured abstract base filesystem type
and the root path template is the empty string; it returns false if either one
is set. -/
theorem is_default_iff (c : StorageTargetConfig) :
    c.is_default = true ↔
      (c.fsspec_class = AbstractFileSystem ∧ c.root_path = "") := by
  simp [StorageTargetConfig.is_default]

/-- **C10.** A freshly constructed storage configuration with no fields set
satisfies `is_default`: the filesystem class defaults to the abstract base
filesystem type, the root path template to the empty string, `fsspec_args`
and `assume_role_credential_kwargs` to empty dicts, and `enable_assume_role`
to `False`. -/
theorem traitDefaults_is_default :
    StorageTargetConfig.is_default StorageTargetConfig.traitDefaults = true ∧
    StorageTargetConfig.traitDefaults.fsspec_class = AbstractFileSystem ∧
    StorageTargetConfig.traitDefaults.root_path = "" ∧
    StorageTargetConfig.traitDefaults.fsspec_args = [] ∧
    StorageTargetConfig.traitDefaults.assume_role_credential_kwargs = [] ∧
    StorageTargetConfig.traitDefaults.enable_assume_role = false :=
  ⟨rfl, rfl, rfl, rfl, rfl, rfl⟩

/-- **C9.** For every storage configuration, the string produced by `__str__`
contains the root path template verbatim and unsanitized: the template appears
literally between a prefix and a suffix of the representation. -/
theorem toStr_contains_root_path_verbatim (c : StorageTargetConfig) :
    ∃ p s : String, StorageTargetConfig.toStr c = p ++ c.root_path ++ s :=
  ⟨c.pangeo_forge_target_class ++ "(" ++ c.fsspec_class.name ++ "(" ++
     fsspecArgsFiltered c.fsspec_args ++ ", root_path=\"", "\")", rfl⟩

/-- **C5.** `__str__` exposes each key of `fsspec_args` only paired with the
runtime type name of its value: two configurations whose `fsspec_args` have
the same keys and the same value types, and which agree on all other fields
shown, produce identical `__str__` output — so no raw `fsspec_args` value
influences the representation. -/
theorem toStr_depends_only_on_keys_and_type_names (a b : StorageTargetConfig)
    (hcls : a.pangeo_forge_target_class = b.pangeo_forge_target_class)
    (hfs : a.fsspec_class = b.fsspec_class)
    (hroot : a.root_path = b.root_path)
    (hargs : a.fsspec_args.map (fun kv => (kv.1, kv.2.typeName)) =
             b.fsspec_args.map (fun kv => (kv.1, kv.2.typeName))) :
    StorageTargetConfig.toStr a = StorageTargetConfig.toStr b := by
  have key : ∀ args : List (String × PyVal),
      args.map (fun kv => kv.1 ++ "=<" ++ kv.2.typeName ++ ">") =
      (args.map (fun kv => (kv.1, kv.2.typeName))).map
        (fun kv => kv.1 ++ "=<" ++ kv.2 ++ ">") := by
    intro args
    rw [List.map_map]
    rfl
  have h : fsspecArgsFiltered a.fsspec_args = fsspecArgsFiltered b.fsspec_args := by
    unfold fsspecArgsFiltered
    rw [key, key, hargs]
  unfold StorageTargetConfig.toStr
  rw [hcls, hfs, hroot, h]

/-- Witness for C5: two configurations holding different secrets of the same
types produce the exact same log representation. -/
theorem toStr_depends_only_on_keys_and_type_names_witness :
    StorageTargetConfig.toStr
      { fsspec_class := ⟨"S3FileSystem"⟩
        fsspec_args := [("key", .str "AKIA111SECRET"), ("anon", .bool false)]
        root_path := "bucket/out"
        enable_assume_role := false
        assume_role_credential_kwargs := []
        pangeo_forge_target_class := "FSSpecTarget" } =
    StorageTargetConfig.toStr
      { fsspec_class := ⟨"S3FileSystem"⟩
        fsspec_args := [("key", .str "hunter2"), ("anon", .bool true)]
        root_path := "bucket/out"
        enable_assume_role := true
        assume_role_credential_kwargs := [("RoleArn", .str "arn")]
        pangeo_forge_target_class := "FSSpecTarget" } :=
  toStr_depends_only_on_keys_and_type_names _ _ rfl rfl rfl rfl

/-- **C6.** For every external target class that is not inspectable as a
structured record (not a dataclass, so `dataclasses.fields` fails),
`get_forge_target` fails with exactly the introspection failure — the error
the spec's taxonomy names `UnsupportedStorageAPIError` — and with no other
error. -/
theorem get_forge_target_not_dataclass_error (c : StorageTargetConfig)
    (cls : ExternalClass) (job_name : String) (h : cls.isDataclass = false) :
    c.get_forge_target cls job_name = .error (.fieldsTypeError cls.name) := by
  unfold StorageTargetConfig.get_forge_target pyFields
  simp [h]

/-- Witness for C6 at a concrete non-dataclass target class. -/
theorem get_forge_target_not_dataclass_error_witness :
    StorageTargetConfig.get_forge_target StorageTargetConfig.traitDefaults
      ⟨"StringStoreTarget", false, []⟩ "run-42" =
      .error (.fieldsTypeError "StringStoreTarget") :=
  get_forge_target_not_dataclass_error _ _ _ rfl

/-- **C1.** For every storage configuration and job name, `get_forge_target`
probes the external class's declared field names and picks exactly the first
matching shape in strict priority order: a class declaring
`enable_assume_role` is called with the filesystem instance, the expanded
root path, the raw `fsspec_args`, the `enable_assume_role` flag and the
`assume_role_credential_kwargs`; else a class declaring `fsspec_kwargs` is
called with the filesystem instance, the expanded root path and the raw
`fsspec_args` under that keyword; else the class is called with only the
filesystem instance and the expanded root path. -/
theorem get_forge_target_shape_priority (c : StorageTargetConfig)
    (cls : ExternalClass) (job_name root : String)
    (hdc : cls.isDataclass = true)
    (hfmt : pyStrFormat c.root_path job_name = .ok root) :
    c.get_forge_target cls job_name = .ok
      { className := cls.name
        fs := ⟨c.fsspec_class, c.fsspec_args⟩
        root_path := root
        kwargs :=
          if "enable_assume_role" ∈ cls.fieldNames then
            [("_fsspec_kwargs", .dict c.fsspec_args),
             ("enable_assume_role", .bool c.enable_assume_role),
             ("assume_role_credential_kwargs",
              .dict c.assume_role_credential_kwargs)]
          else if "fsspec_kwargs" ∈ cls.fieldNames then
            [("fsspec_kwargs", .dict c.fsspec_args)]
          else [] } := by
  unfold StorageTargetConfig.get_forge_target pyFields
  simp only [hdc, if_true, hfmt]
  split
  · simp_all
  · split <;> simp_all

/-- Witness for C1: a class declaring all three shapes' parameters gets shape
(a), and a class declaring only the oldest shape is still constructed
successfully with only the filesystem instance and the root path. -/
theorem get_forge_target_shape_priority_witness :
    StorageTargetConfig.get_forge_target
      { fsspec_class := ⟨"S3FileSystem"⟩
        fsspec_args := [("anon", .bool true)]
        root_path := "{job_name}/out"
        enable_assume_role := true
        assume_role_credential_kwargs := [("RoleArn", .str "arn:aws:iam::1:role/r")]
        pangeo_forge_target_class := "FSSpecTarget" }
      ⟨"FSSpecTarget", true,
       ["fs", "root_path", "fsspec_kwargs", "enable_assume_role",
        "assume_role_credential_kwargs"]⟩ "run-42" = .ok
      { className := "FSSpecTarget"
        fs := ⟨⟨"S3FileSystem"⟩, [("anon", .bool true)]⟩
        root_path := "run-42/out"
        kwargs := [("_fsspec_kwargs", .dict [("anon", .bool true)]),
                   ("enable_assume_role", .bool true),
                   ("assume_role_credential_kwargs",
                    .dict [("RoleArn", .str "arn:aws:iam::1:role/r")])] } ∧
    StorageTargetConfig.get_forge_target
      { fsspec_class := ⟨"S3FileSystem"⟩
        fsspec_args := [("anon", .bool true)]
        root_path := "{job_name}/out"
        enable_assume_role := true
        assume_role_credential_kwargs := [("RoleArn", .str "arn:aws:iam::1:role/r")]
        pangeo_forge_target_class := "FSSpecTarget" }
      ⟨"FSSpecTarget", true, ["fs", "root_path"]⟩ "run-42" = .ok
      { className := "FSSpecTarget"
        fs := ⟨⟨"S3FileSystem"⟩, [("anon", .bool true)]⟩
        root_path := "run-42/out"
        kwargs := [] } :=
  ⟨get_forge_target_shape_priority _ _ "run-42" "run-42/out" rfl rfl,
   get_forge_target_shape_priority _ _ "run-42" "run-42/out" rfl rfl⟩

/-- **C8.** When the external class declares `enable_assume_role` (shape (a)),
the raw `fsspec_args` are passed under the keyword `_fsspec_kwargs`
(underscore-prefixed), whereas in shape (b) the same data is passed under the
keyword `fsspec_kwargs` — and those two keywords differ. -/
theorem fsspec_kwargs_keyword_differs_between_shapes (c : StorageTargetConfig)
    (job_name root : String) (clsA clsB : ExternalClass)
    (hAdc : clsA.isDataclass = true)
    (hA : "enable_assume_role" ∈ clsA.fieldNames)
    (hBdc : clsB.isDataclass = true)
    (hB1 : "enable_assume_role" ∉ clsB.fieldNames)
    (hB2 : "fsspec_kwargs" ∈ clsB.fieldNames)
    (hfmt : pyStrFormat c.root_path job_name = .ok root) :
    (∃ rest, c.get_forge_target clsA job_name = .ok
      { className := clsA.name
        fs := ⟨c.fsspec_class, c.fsspec_args⟩
        root_path := root
        kwargs := ("_fsspec_kwargs", KwVal.dict c.fsspec_args) :: rest }) ∧
    c.get_forge_target clsB job_name = .ok
      { className := clsB.name
        fs := ⟨c.fsspec_class, c.fsspec_args⟩
        root_path := root
        kwargs := [("fsspec_kwargs", KwVal.dict c.fsspec_args)] } ∧
    "_fsspec_kwargs" ≠ "fsspec_kwargs" := by
  refine ⟨⟨[("enable_assume_role", .bool c.enable_assume_role),
            ("assume_role_credential_kwargs",
             .dict c.assume_role_credential_kwargs)], ?_⟩, ?_, by decide⟩
  · unfold StorageTargetConfig.get_forge_target pyFields
    simp [hAdc, hfmt, hA]
  · unfold StorageTargetConfig.get_forge_target pyFields
    simp [hBdc, hfmt, hB1, hB2]

/-- Witness for C8 at concrete shape-(a) and shape-(b) classes. -/
theorem fsspec_kwargs_keyword_differs_between_shapes_witness :
    (∃ rest, StorageTargetConfig.get_forge_target
      { fsspec_class := ⟨"GCSFileSystem"⟩
        fsspec_args := [("token", .str "creds.json")]
        root_path := "out"
        enable_assume_role := false
        assume_role_credential_kwargs := []
        pangeo_forge_target_class := "FSSpecTarget" }
      ⟨"FSSpecTarget", true, ["fs", "root_path", "enable_assume_role"]⟩
      "run-42" = .ok
      { className := "FSSpecTarget"
        fs := ⟨⟨"GCSFileSystem"⟩, [("token", .str "creds.json")]⟩
        root_path := "out"
        kwargs := ("_fsspec_kwargs", KwVal.dict [("token", .str "creds.json")]) :: rest }) ∧
    StorageTargetConfig.get_forge_target
      { fsspec_class := ⟨"GCSFileSystem"⟩
        fsspec_args := [("token", .str "creds.json")]
        root_path := "out"
        enable_assume_role := false
        assume_role_credential_kwargs := []
        pangeo_forge_target_class := "FSSpecTarget" }
      ⟨"FSSpecTarget", true, ["fs", "root_path", "fsspec_kwargs"]⟩
      "run-42" = .ok
      { className := "FSSpecTarget"
        fs := ⟨⟨"GCSFileSystem"⟩, [("token", .str "creds.json")]⟩
        root_path := "out"
        kwargs := [("fsspec_kwargs", KwVal.dict [("token", .str "creds.json")])] } ∧
    "_fsspec_kwargs" ≠ "fsspec_kwargs" :=
  fsspec_kwargs_keyword_differs_between_shapes _ "run-42" "out" _ _
    rfl (by decide) rfl (by decide) (by decide) rfl

/-!
## Root-path templates built from literal text and `{job_name}` placeholders

For the amended form of the root-path-expansion claim it is quantified over
templates whose brace characters occur only as part of exact `{job_name}`
placeholders: such a template is a list of `TemplItem`s, rendered by
`templRender`; `templSubst` is what substituting the job name for each
placeholder yields.
-/

/-- One piece of a root-path template: a literal character or the
`{job_name}` placeholder. -/
inductive TemplItem where
  | lit (c : Char)
  | jobPlaceholder
deriving DecidableEq

/-- A template piece whose literal characters are not braces. -/
def TemplItem.braceFree : TemplItem → Bool
  | .lit c => !(c == '{') && !(c == '}')
  | .jobPlaceholder => true

/-- The template string a list of pieces denotes. -/
def templRender : List TemplItem → List Char
  | [] => []
  | .lit c :: items => c :: templRender items
  | .jobPlaceholder :: items => '{' :: (jobNameField ++ '}' :: templRender items)

/-- The result of substituting `job` for each placeholder. -/
def templSubst (job : List Char) : List TemplItem → List Char
  | [] => []
  | .lit c :: items => c :: templSubst job items
  | .jobPlaceholder :: items => job ++ templSubst job items

/-- A non-brace character in text mode passes through the scanner. -/
theorem pyFmtGo_lit (job : List Char) (c : Char) (h1 : c ≠ '{') (h2 : c ≠ '}')
    (rest : List Char) :
    pyFmtGo job (c :: rest) .text =
      match pyFmtGo job rest .text with
      | .error e => .error e
      | .ok out => .ok (c :: out) := by
  simp [pyFmtGo, h1, h2]

/-- An exact `{job_name}` placeholder is replaced by the job name. -/
theorem pyFmtGo_placeholder (job rest : List Char) :
    pyFmtGo job ('{' :: (jobNameField ++ '}' :: rest)) .text =
      match pyFmtGo job rest .text with
      | .error e => .error e
      | .ok out => .ok (job ++ out) := by
  simp [pyFmtGo, jobNameField, fieldLookup]

/-- On templates whose only brace constructs are exact `{job_name}`
placeholders, the scanner succeeds and produces the substitution. -/
theorem pyFmtGo_templ (job : List Char) :
    ∀ items : List TemplItem, items.all TemplItem.braceFree = true →
      pyFmtGo job (templRender items) .text = .ok (templSubst job items) := by
  intro items
  induction items with
  | nil => intro _; rfl
  | cons it items ih =>
    intro h
    rw [List.all_cons, Bool.and_eq_true] at h
    cases it with
    | lit c =>
      have hc : ¬(c == '{') = true ∧ ¬(c == '}') = true := by
        have := h.1
        simp [TemplItem.braceFree] at this
        exact ⟨by simp [this.1], by simp [this.2]⟩
      rw [templRender, pyFmtGo_lit job c (by simpa using hc.1) (by simpa using hc.2),
        ih h.2]
      rfl
    | jobPlaceholder =>
      rw [templRender, pyFmtGo_placeholder, ih h.2]
      rfl

/-- **C2 (counterexample).** The claim's "literal substring substitution /
unchanged when the placeholder is absent" fails on the code: the template
`"{{job_name}}"` contains the placeholder substring (it is
`"{" ++ "{job_name}" ++ "}"`, whose literal substitution is `"{run-42}"`),
yet `get_forge_target` produces the root path `"{job_name}"`; and the
template `"{x}"`, which is too short to contain the placeholder, is not used
unchanged — `get_forge_target` fails with the `KeyError` from `str.format`. -/
theorem root_path_not_literal_subst_cex :
    ("{{job_name}}" : String) = "\x7b" ++ "{job_name}" ++ "\x7d" ∧
    ("\x7b" : String) ++ "run-42" ++ "\x7d" = "{run-42}" ∧
    StorageTargetConfig.get_forge_target
      { StorageTargetConfig.traitDefaults with root_path := "{{job_name}}" }
      ⟨"FSSpecTarget", true, ["fs", "root_path"]⟩ "run-42" =
      .ok { className := "FSSpecTarget", fs := ⟨AbstractFileSystem, []⟩,
            root_path := "{job_name}", kwargs := [] } ∧
    ("{job_name}" : String) ≠ "{run-42}" ∧
    StorageTargetConfig.get_forge_target
      { StorageTargetConfig.traitDefaults with root_path := "{x}" }
      ⟨"FSSpecTarget", true, ["fs", "root_path"]⟩ "run-42" =
      .error (.formatError (.keyError "x")) ∧
    ("{x}" : String).length < ("{job_name}" : String).length :=
  ⟨rfl, rfl, rfl, by decide, rfl, by decide⟩

/-- **C2 (amended).** `get_forge_target` expands the root path template with
Python `str.format` semantics: for every template whose brace characters
occur only as part of exact `{job_name}` placeholders, each placeholder is
replaced by the job name (in particular a template with no braces at all is
used unchanged), and any constructed target carries that expansion as its
root path.  Templates with other brace constructs follow `str.format`
(escapes or errors, per `root_path_not_literal_subst_cex`). -/
theorem root_path_format_placeholder_subst (items : List TemplItem)
    (job : String) (h : items.all TemplItem.braceFree = true) :
    pyStrFormat (String.mk (templRender items)) job =
      .ok (String.mk (templSubst job.toList items)) ∧
    (∀ (c : StorageTargetConfig) (cls : ExternalClass) (t : TargetInstance),
       c.root_path = String.mk (templRender items) →
       c.get_forge_target cls job = .ok t →
       t.root_path = String.mk (templSubst job.toList items)) := by
  have h1 : pyStrFormat (String.mk (templRender items)) job =
      .ok (String.mk (templSubst job.toList items)) := by
    unfold pyStrFormat
    rw [show (String.mk (templRender items)).toList = templRender items from rfl,
      pyFmtGo_templ job.toList items h]
  refine ⟨h1, ?_⟩
  intro c cls t hroot hok
  unfold StorageTargetConfig.get_forge_target at hok
  cases hcls : pyFields cls with
  | error e => rw [hcls] at hok; exact absurd hok (by simp)
  | ok flds =>
    simp only [hcls, hroot, h1] at hok
    split at hok <;> try split at hok
    all_goals (simp only [Except.ok.injEq] at hok; subst hok; rfl)

/-- Witness for the amended C2 at the template `"{job_name}/out"` and job
name `"run-42"`. -/
theorem root_path_format_placeholder_subst_witness :
    pyStrFormat "{job_name}/out" "run-42" = .ok "run-42/out" :=
  (root_path_format_placeholder_subst
    [.jobPlaceholder, .lit '/', .lit 'o', .lit 'u', .lit 't'] "run-42"
    (by decide)).1

/-- Modelled from the spec: the RecipesSpec *list shape*, an ordered sequence
of records (`{id: string, object: string}` entries).  Spec-side comparator
only; the source's validation is `validRecipes`. -/
def specRecipesListShape : PyVal → Bool
  | .list xs => xs.all isDictVal
  | _ => false

/-- Modelled from the spec: the RecipesSpec *dict shape*, "a single-key
record whose value is a string".  Spec-side comparator only; the source's
validation is `validRecipes`. -/
def specRecipesDictShape : PyVal → Bool
  | .dict [(_, .str _)] => true
  | _ => false

/-- A value is accepted by `isDictVal` exactly when it is a dict. -/
theorem isDictVal_iff (v : PyVal) :
    isDictVal v = true ↔ ∃ es, v = PyVal.dict es := by
  cases v <;> simp [isDictVal]

/-- `validRecipes` accepts exactly the lists of dicts and the dicts. -/
theorem validRecipes_iff (v : PyVal) :
    validRecipes v = true ↔
      ((∃ xs, v = PyVal.list xs ∧ ∀ x ∈ xs, ∃ es, x = PyVal.dict es) ∨
       (∃ es, v = PyVal.dict es)) := by
  cases v <;> simp [validRecipes, List.all_eq_true, isDictVal_iff]

/-- Validating a document that carries only `recipes` succeeds with defaults
for every other trait when the value passes `validRecipes`, and raises the
`TraitError` naming `recipes` otherwise. -/
theorem metaYamlValidate_recipesOnly (v : PyVal) :
    metaYamlValidate (recipesOnlyDoc v) =
      if validRecipes v then
        .ok ⟨.str "", .str "", v, .dict [], .list []⟩
      else .error (.traitError "recipes") := by
  by_cases hv : validRecipes v = true
  · rw [if_pos hv]
    unfold metaYamlValidate recipesOnlyDoc validateTrait
    simp [hv]
  · rw [if_neg hv]
    unfold metaYamlValidate recipesOnlyDoc validateTrait
    simp [hv]

/-- **C3 (counterexample).** The dict `{"a": 1, "b": 2}` matches neither
spec shape — it is not a list of records, and not a single-key record whose
value is a string — yet `MetaYaml` validation accepts it as `recipes`. -/
theorem recipes_multikey_dict_accepted_cex :
    metaYamlValidate (recipesOnlyDoc
        (.dict [("a", .int 1), ("b", .int 2)])) =
      .ok ⟨.str "", .str "",
           .dict [("a", .int 1), ("b", .int 2)], .dict [], .list []⟩ ∧
    specRecipesListShape (.dict [("a", .int 1), ("b", .int 2)]) = false ∧
    specRecipesDictShape (.dict [("a", .int 1), ("b", .int 2)]) = false :=
  ⟨rfl, rfl, rfl⟩

/-- **C3 (amended).** `MetaYaml` validation accepts a `recipes` value iff it
is a list all of whose elements are dicts, or a dict (of any size, with
arbitrary values — the single-key/string-value restriction of the spec's
dict shape is not enforced); a value that is neither — e.g. a list of
strings — fails, every outcome being either that acceptance or the
`SchemaError` naming `recipes`. -/
theorem recipes_validation_characterization (v : PyVal) :
    ((∃ m, metaYamlValidate (recipesOnlyDoc v) = .ok m) ↔
      ((∃ xs, v = PyVal.list xs ∧ ∀ x ∈ xs, ∃ es, x = PyVal.dict es) ∨
       (∃ es, v = PyVal.dict es))) ∧
    (metaYamlValidate (recipesOnlyDoc v) =
        .ok ⟨.str "", .str "", v, .dict [], .list []⟩ ∨
     metaYamlValidate (recipesOnlyDoc v) = .error (.traitError "recipes")) := by
  simp only [metaYamlValidate_recipesOnly]
  constructor
  · rw [← validRecipes_iff]
    by_cases hv : validRecipes v = true <;> simp [hv]
  · by_cases hv : validRecipes v = true <;> simp [hv]

/-- Witness for the amended C3: the single-entry dict `recipes` shape used by
the test suite is accepted. -/
theorem recipes_validation_characterization_witness :
    (metaYamlValidate (recipesOnlyDoc
        (PyVal.dict [("dict_object", PyVal.str "recipe:recipes")]))).isOk = true := by
  obtain ⟨m, hm⟩ := (recipes_validation_characterization
      (PyVal.dict [("dict_object", PyVal.str "recipe:recipes")])).1.mpr
      (Or.inr ⟨_, rfl⟩)
  rw [hm]
  rfl

/-- **C7 (counterexample).** A document with no `recipes` key (indeed with no
keys at all) passes `MetaYaml` validation: `recipes` silently takes the
`Union`'s default, the empty list, instead of failing. -/
theorem metaYaml_absent_recipes_accepted_cex :
    metaYamlValidate ⟨Option.none, Option.none, Option.none, Option.none,
        Option.none⟩ =
      .ok ⟨.str "", .str "", .list [], .dict [], .list []⟩ := rfl

/-- **C7 (amended).** `MetaYaml` validation never fails on account of an
absent field: absence of any field — `recipes` included — is legal and is
treated exactly as if that field's empty default had been passed (`""` for
`title` and `description`, `[]` for `recipes` and `maintainers`, `{}` for
`provenance`). -/
theorem metaYaml_absent_fields_use_defaults (d : RawDoc) :
    metaYamlValidate d = metaYamlValidate
      ⟨some (d.title.getD (.str "")), some (d.description.getD (.str "")),
       some (d.recipes.getD (.list [])), some (d.provenance.getD (.dict [])),
       some (d.maintainers.getD (.list []))⟩ := by
  obtain ⟨t, desc, r, p, m⟩ := d
  cases t <;> cases desc <;> cases r <;> cases p <;> cases m <;> rfl
